import Mathlib

/-!
Shallow embedding of `src/openproject_mcp_server/server.py` (OpenProject MCP
server).  Python dictionaries that become JSON request/response bodies are
modelled by the inductive type `JVal`; a Python dict literal is an ordered
association list of string keys.  Python truthiness of optional arguments is
modelled explicitly (`truthyInt`, `truthyStr`, ...).  Dictionary access that
can raise (`d[k]`) is modelled in the `Except PyErr` monad, while `d.get(k,
default)` is total on dictionaries.
-/

/-- JSON-like values, the shape of decoded API responses and request bodies. -/
inductive JVal where
  | null : JVal
  | bool (b : Bool) : JVal
  | num (n : Int) : JVal
  | str (s : String) : JVal
  | arr (xs : List JVal) : JVal
  | obj (fields : List (String × JVal)) : JVal
  deriving Repr

namespace JVal

/-- Python truthiness of a JSON value: `None`, `False`, `0`, `""`, `[]` and
`{}` are falsy, everything else is truthy. -/
def truthy : JVal → Bool
  | .null => false
  | .bool b => b
  | .num n => n != 0
  | .str s => s != ""
  | .arr xs => !xs.isEmpty
  | .obj fs => !fs.isEmpty

/-- Lookup of a key in an ordered field list (first occurrence wins, as in a
Python dict where keys are unique anyway). -/
def lookupField (fs : List (String × JVal)) (k : String) : Option JVal :=
  (fs.find? (fun p => p.1 = k)).map (fun p => p.2)

end JVal

/-- Python exceptions that the embedded fragments can raise. -/
inductive PyErr where
  | keyError (k : String) : PyErr
  | attributeError : PyErr
  | typeError : PyErr
  deriving Repr, DecidableEq

namespace JVal

/-- Model of Python `d.get(k, default)`: total on dictionaries, raises
`AttributeError` when the receiver is not a dictionary. -/
def pyGet (v : JVal) (k : String) (d : JVal) : Except PyErr JVal :=
  match v with
  | .obj fs => .ok ((lookupField fs k).getD d)
  | _ => .error .attributeError

/-- Model of Python `d[k]` on a dictionary: raises `KeyError` when the key is
absent and `TypeError` when the receiver is not a dictionary. -/
def pyIndex (v : JVal) (k : String) : Except PyErr JVal :=
  match v with
  | .obj fs =>
    match lookupField fs k with
    | some x => .ok x
    | none => .error (.keyError k)
  | _ => .error .typeError

/-- Model of Python `len(v)` for the container shapes that occur here. -/
def pyLen (v : JVal) : Except PyErr Nat :=
  match v with
  | .arr xs => .ok xs.length
  | .str s => .ok s.length
  | .obj fs => .ok fs.length
  | _ => .error .typeError

/-- Model of Python `str(v)` for the scalar shapes interpolated into
formatted output. -/
def pyStr : JVal → String
  | .null => "None"
  | .bool true => "True"
  | .bool false => "False"
  | .num n => toString n
  | .str s => s
  | .arr _ => "<list>"
  | .obj _ => "<dict>"

end JVal

/-- Python truthiness of an `Optional[int]` argument (`None` and `0` are
falsy). -/
def truthyInt : Option Int → Bool
  | none => false
  | some n => n != 0

/-- Python truthiness of an `Optional[str]` argument (`None` and `""` are
falsy). -/
def truthyStr : Option String → Bool
  | none => false
  | some s => s != ""

/-- Python truthiness of an `Optional[list[int]]` argument (`None` and the
empty list are falsy). -/
def truthyIntList : Option (List Int) → Bool
  | none => false
  | some l => !l.isEmpty

mutual

/-- Model of Python `json.dumps` (default separators `", "` and `": "`) on a
JSON value.  String escaping is not modelled; no string serialized by the
embedded code contains characters that need escaping. -/
def jdumps : JVal → String
  | .null => "null"
  | .bool true => "true"
  | .bool false => "false"
  | .num n => toString n
  | .str s => "\"" ++ s ++ "\""
  | .arr xs => "[" ++ jdumpsElems xs ++ "]"
  | .obj fs => "\x7b" ++ jdumpsFields fs ++ "\x7d"

/-- Comma-separated serialization of array elements. -/
def jdumpsElems : List JVal → String
  | [] => ""
  | [x] => jdumps x
  | x :: y :: xs => jdumps x ++ ", " ++ jdumpsElems (y :: xs)

/-- Comma-separated serialization of object fields. -/
def jdumpsFields : List (String × JVal) → String
  | [] => ""
  | [(k, v)] => "\"" ++ k ++ "\": " ++ jdumps v
  | (k, v) :: f :: fs => "\"" ++ k ++ "\": " ++ jdumps v ++ ", " ++ jdumpsFields (f :: fs)

end

/-!
Filter construction of the list tools (`server.py`).
-/

/-- Filter list built by `list_work_packages` from its `status` argument
(server.py lines 214-219). -/
def list_work_packages_filters (status : String) : List JVal :=
  if status = "open" then
    [.obj [("status", .obj [("operator", .str "o"), ("values", .arr [])])]]
  else if status = "closed" then
    [.obj [("status", .obj [("operator", .str "c"), ("values", .arr [])])]]
  else
    []

/-- Serialized `filters` argument passed on by `list_work_packages`
(server.py line 221): `json.dumps(filters) if filters else None`. -/
def list_work_packages_filtersStr (status : String) : Option String :=
  let filters := list_work_packages_filters status
  if filters.isEmpty then none else some (jdumps (.arr filters))

/-- Serialized `filters` argument built by `list_projects` (server.py lines
96-98): `None` unless `active_only` is set. -/
def list_projects_filters (active_only : Bool) : Option String :=
  if active_only then
    some (jdumps (.arr [.obj [("active", .obj [("operator", .str "="), ("values", .arr [.str "t"])])]]))
  else
    none

/-- Serialized `filters` argument built by `list_users` (server.py lines
448-450): `None` unless `active_only` is set. -/
def list_users_filters (active_only : Bool) : Option String :=
  if active_only then
    some (jdumps (.arr [.obj [("status", .obj [("operator", .str "="), ("values", .arr [.str "active"])])]]))
  else
    none

/-- Filter list built by `list_time_entries` (server.py lines 837-841). -/
def list_time_entries_filters (work_package_id user_id : Option Int) : List JVal :=
  (if truthyInt work_package_id then
    [.obj [("work_package_id", .obj [("operator", .str "="),
      ("values", .arr [.str (toString (work_package_id.getD 0))])])]]
  else []) ++
  (if truthyInt user_id then
    [.obj [("user_id", .obj [("operator", .str "="),
      ("values", .arr [.str (toString (user_id.getD 0))])])]]
  else [])

/-- Serialized `filters` argument passed on by `list_time_entries`
(server.py line 843). -/
def list_time_entries_filtersStr (work_package_id user_id : Option Int) : Option String :=
  let filters := list_time_entries_filters work_package_id user_id
  if filters.isEmpty then none else some (jdumps (.arr filters))

/-- Filter list built by `list_work_package_relations` (server.py lines
1141-1145). -/
def list_work_package_relations_filters (work_package_id : Option Int)
    (relation_type : Option String) : List JVal :=
  (if truthyInt work_package_id then
    [.obj [("involved", .obj [("operator", .str "="),
      ("values", .arr [.str (toString (work_package_id.getD 0))])])]]
  else []) ++
  (if truthyStr relation_type then
    [.obj [("type", .obj [("operator", .str "="),
      ("values", .arr [.str (relation_type.getD "")])])]]
  else [])

/-- Serialized `filters` argument passed on by `list_work_package_relations`
(server.py line 1147). -/
def list_work_package_relations_filtersStr (work_package_id : Option Int)
    (relation_type : Option String) : Option String :=
  let filters := list_work_package_relations_filters work_package_id relation_type
  if filters.isEmpty then none else some (jdumps (.arr filters))

/-!
Request-body construction of the create/update tools.  A Python statement
`if x is not None: data[k] = x` appends the field exactly when the argument
is not `None`; `if x: data[k] = x` appends it exactly when the argument is
truthy.  Keys are pairwise distinct in every builder, so dict insertion in
source order is faithfully modelled by list concatenation.
-/

/-- Field appended by `if x is not None: data[k] = f(x)`. -/
def optField (k : String) (f : α → JVal) : Option α → List (String × JVal)
  | some v => [(k, f v)]
  | none => []

/-- Field appended by `if x: data[k] = f(x)` for a truthiness test `t`. -/
def truthyField (k : String) (f : α → JVal) (t : α → Bool) : Option α → List (String × JVal)
  | some v => if t v then [(k, f v)] else []
  | none => []

/-- Request body built by `create_project` (server.py lines 170-180). -/
def create_project_data (name identifier : String) (description : Option String)
    (public : Bool) (status : Option String) (parent_id : Option Int) :
    List (String × JVal) :=
  [("name", .str name), ("identifier", .str identifier), ("public", .bool public)]
  ++ truthyField "description" .str (fun s => s != "") description
  ++ truthyField "status" .str (fun s => s != "") status
  ++ truthyField "parent_id" .num (fun n => n != 0) parent_id

/-- Request body built by `create_work_package` (server.py lines 322-332);
creation uses the `project`/`type` key names, not `project_id`/`type_id`. -/
def create_work_package_data (project_id : Int) (subject : String) (type_id : Int)
    (description : Option String) (priority_id assignee_id : Option Int) :
    List (String × JVal) :=
  [("project", .num project_id), ("subject", .str subject), ("type", .num type_id)]
  ++ truthyField "description" .str (fun s => s != "") description
  ++ truthyField "priority_id" .num (fun n => n != 0) priority_id
  ++ truthyField "assignee_id" .num (fun n => n != 0) assignee_id

/-- Request body built by `update_work_package` (server.py lines 367-381);
every optional field is tested with `is not None`. -/
def update_work_package_data (subject description : Option String)
    (type_id status_id priority_id assignee_id percentage_done : Option Int) :
    List (String × JVal) :=
  optField "subject" .str subject
  ++ optField "description" .str description
  ++ optField "type_id" .num type_id
  ++ optField "status_id" .num status_id
  ++ optField "priority_id" .num priority_id
  ++ optField "assignee_id" .num assignee_id
  ++ optField "percentage_done" .num percentage_done

/-- Request body built by `update_project` (server.py lines 565-577); every
optional field is tested with `is not None`. -/
def update_project_data (name identifier description : Option String)
    (public : Option Bool) (status : Option String) (parent_id : Option Int) :
    List (String × JVal) :=
  optField "name" .str name
  ++ optField "identifier" .str identifier
  ++ optField "description" .str description
  ++ optField "public" .bool public
  ++ optField "status" .str status
  ++ optField "parent_id" .num parent_id

/-- Request body built by `create_time_entry` (server.py lines 884-892); the
required float `hours` is carried as an opaque JSON value. -/
def create_time_entry_data (work_package_id : Int) (hours : JVal) (spent_on : String)
    (comment : Option String) (activity_id : Option Int) : List (String × JVal) :=
  [("work_package_id", .num work_package_id), ("hours", hours), ("spent_on", .str spent_on)]
  ++ truthyField "comment" .str (fun s => s != "") comment
  ++ truthyField "activity_id" .num (fun n => n != 0) activity_id

/-- Outcome of a tool invocation: the sequence of request bodies handed to
the client method, and the text returned to the caller. -/
structure ToolRun where
  calls : List (List (String × JVal))
  output : String
  deriving Repr

/-- Outcome of an update tool invocation: the sequence of `(resource id,
change payload)` pairs handed to the client method, and the text returned. -/
structure UpdateRun where
  calls : List (Int × List (String × JVal))
  output : String
  deriving Repr

/-- Model of the `update_work_package` tool body (server.py lines 365-387):
the change payload is always handed to the client, even when empty.
`clientResp` is the client's answer: the `(id, subject)` of the updated work
package on success, an exception message on failure. -/
def update_work_package_run (work_package_id : Int) (subject description : Option String)
    (type_id status_id priority_id assignee_id percentage_done : Option Int)
    (clientResp : Except String (Int × String)) : UpdateRun :=
  let data := update_work_package_data subject description type_id status_id
    priority_id assignee_id percentage_done
  { calls := [(work_package_id, data)]
    output :=
      match clientResp with
      | .ok wp => "✅ Work package updated: #" ++ toString wp.1 ++ " - **" ++ wp.2 ++ "**"
      | .error e => "❌ Error: " ++ e }

/-- Model of the `update_project` tool body (server.py lines 563-583): the
change payload is always handed to the client, even when empty. -/
def update_project_run (project_id : Int) (name identifier description : Option String)
    (public : Option Bool) (status : Option String) (parent_id : Option Int)
    (clientResp : Except String (Int × String)) : UpdateRun :=
  let data := update_project_data name identifier description public status parent_id
  { calls := [(project_id, data)]
    output :=
      match clientResp with
      | .ok p => "✅ Project updated: **" ++ p.2 ++ "** (ID: " ++ toString p.1 ++ ")"
      | .error e => "❌ Error: " ++ e }

/-- Request body built by `create_work_package_relation` (server.py lines
1109-1117). -/
def create_work_package_relation_data (from_id to_id : Int) (relation_type : String)
    (lag : Option Int) (description : Option String) : List (String × JVal) :=
  [("from_id", .num from_id), ("to_id", .num to_id),
      ("relation_type", .str relation_type)]
    ++ optField "lag" .num lag
    ++ truthyField "description" .str (fun s => s != "") description

/-- Model of the `create_work_package_relation` tool body (server.py lines
1107-1123): the request body is built unconditionally and handed to the
client; there is no local comparison of `from_id` and `to_id`. -/
def create_work_package_relation_run (from_id to_id : Int) (relation_type : String)
    (lag : Option Int) (description : Option String)
    (clientResp : Except String Unit) : ToolRun :=
  { calls := [create_work_package_relation_data from_id to_id relation_type lag description]
    output :=
      match clientResp with
      | .ok _ => "✅ Relation created: #" ++ toString from_id ++ " " ++ relation_type
          ++ " #" ++ toString to_id
      | .error e => "❌ Error: " ++ e }

/-- Role fields appended by `create_membership` (server.py lines 667-670):
`role_ids` is tested first (truthiness), then `role_id`. -/
def membership_role_fields (role_ids : Option (List Int)) (role_id : Option Int) :
    List (String × JVal) :=
  if truthyIntList role_ids then
    [("role_ids", JVal.arr ((role_ids.getD []).map JVal.num))]
  else if truthyInt role_id then
    [("role_id", JVal.num (role_id.getD 0))]
  else []

/-- Model of the `create_membership` tool body (server.py lines 657-676):
`user_id` is tested first (truthiness), then `group_id`; with neither truthy
the tool returns a locally generated error string and performs no client
call. -/
def create_membership_run (project_id : Int) (user_id group_id : Option Int)
    (role_ids : Option (List Int)) (role_id : Option Int)
    (clientResp : Except String Unit) : ToolRun :=
  let base := [("project_id", JVal.num project_id)]
  let principal :=
    if truthyInt user_id then some [("user_id", JVal.num (user_id.getD 0))]
    else if truthyInt group_id then some [("group_id", JVal.num (group_id.getD 0))]
    else none
  match principal with
  | none => { calls := [], output := "❌ Error: Either user_id or group_id must be provided" }
  | some pf =>
    { calls := [base ++ pf ++ membership_role_fields role_ids role_id]
      output :=
        match clientResp with
        | .ok _ => "✅ Membership created successfully"
        | .error e => "❌ Error: " ++ e }

/-!
Client construction (`get_client`, server.py lines 36-58).
-/

/-- Process environment as read by `get_client`. -/
structure Env where
  url : Option String
  api_key : Option String
  proxy : Option String

/-- Connection handle; constructed only by `get_client`. -/
structure Client where
  base_url : String
  api_key : String
  proxy : Option String
  deriving Repr

/-- Model of `get_client` (server.py lines 36-58): on first use (no cached
client) the environment is read and a `ValueError` is raised before any
client is constructed unless both `OPENPROJECT_URL` and
`OPENPROJECT_API_KEY` are set to truthy values. -/
def get_client (cached : Option Client) (env : Env) : Except String Client :=
  match cached with
  | some c => .ok c
  | none =>
    if !truthyStr env.url || !truthyStr env.api_key then
      .error "OPENPROJECT_URL and OPENPROJECT_API_KEY must be set"
    else
      .ok { base_url := env.url.getD "", api_key := env.api_key.getD "", proxy := env.proxy }

/-!
Defensive reading of embedded sub-resources (`list_work_packages`, server.py
lines 238-248, and `get_work_package`, lines 270-288).
-/

/-- Status name read per work package by `list_work_packages` (line 239):
`wp.get("_embedded", {}).get("status", {}).get("name", "Unknown")`. -/
def lwp_statusName (wp : JVal) : Except PyErr JVal :=
  (wp.pyGet "_embedded" (.obj [])).bind fun e =>
    (e.pyGet "status" (.obj [])).bind fun s =>
      s.pyGet "name" (.str "Unknown")

/-- Type name read per work package by `list_work_packages` (line 243):
`wp.get("_embedded", {}).get("type", {}).get("name", "N/A")`. -/
def lwp_typeName (wp : JVal) : Except PyErr JVal :=
  (wp.pyGet "_embedded" (.obj [])).bind fun e =>
    (e.pyGet "type" (.obj [])).bind fun t =>
      t.pyGet "name" (.str "N/A")

/-- Assignee name read per work package by `list_work_packages` (lines
246-248): `None` when the truthiness guard skips the assignee line, otherwise
`wp["_embedded"]["assignee"].get("name", "N/A")`. -/
def lwp_assigneeName (wp : JVal) : Except PyErr (Option JVal) :=
  (wp.pyGet "_embedded" (.obj [])).bind fun e =>
    (e.pyGet "assignee" JVal.null).bind fun a =>
      if a.truthy then
        (wp.pyIndex "_embedded").bind fun e2 =>
          (e2.pyIndex "assignee").bind fun a2 =>
            (a2.pyGet "name" (.str "N/A")).map fun n => some n
      else
        .ok none

/-- Status name read by `get_work_package` (line 272), default `"Unknown"`. -/
def gwp_statusName (wp : JVal) : Except PyErr JVal :=
  (wp.pyGet "_embedded" (.obj [])).bind fun e =>
    (e.pyGet "status" (.obj [])).bind fun s =>
      s.pyGet "name" (.str "Unknown")

/-- Type name read by `get_work_package` (line 275), default `"N/A"`. -/
def gwp_typeName (wp : JVal) : Except PyErr JVal :=
  (wp.pyGet "_embedded" (.obj [])).bind fun e =>
    (e.pyGet "type" (.obj [])).bind fun t =>
      t.pyGet "name" (.str "N/A")

/-- Assignee name read by `get_work_package` (lines 282-284): `None` when the
truthiness guard skips the line, otherwise
`wp["_embedded"]["assignee"].get("name", "Unassigned")`. -/
def gwp_assigneeName (wp : JVal) : Except PyErr (Option JVal) :=
  (wp.pyGet "_embedded" (.obj [])).bind fun e =>
    (e.pyGet "assignee" JVal.null).bind fun a =>
      if a.truthy then
        (wp.pyIndex "_embedded").bind fun e2 =>
          (e2.pyIndex "assignee").bind fun a2 =>
            (a2.pyGet "name" (.str "Unassigned")).map fun n => some n
      else
        .ok none

/-- Project name read by `get_work_package` (lines 286-288): `None` when the
truthiness guard skips the line, otherwise
`wp["_embedded"]["project"].get("name", "N/A")`. -/
def gwp_projectName (wp : JVal) : Except PyErr (Option JVal) :=
  (wp.pyGet "_embedded" (.obj [])).bind fun e =>
    (e.pyGet "project" JVal.null).bind fun p =>
      if p.truthy then
        (wp.pyIndex "_embedded").bind fun e2 =>
          (e2.pyIndex "project").bind fun p2 =>
            (p2.pyGet "name" (.str "N/A")).map fun n => some n
      else
        .ok none

/-- Envelope whose embedded sub-resource `rel` (or its `name` subfield) is
missing: the object has no `_embedded` key, or `_embedded` is an object
without `rel`, or `_embedded.rel` is an object without `name`. -/
def lacksEmbeddedName (wp : JVal) (rel : String) : Prop :=
  ∃ fs, wp = JVal.obj fs ∧
    (JVal.lookupField fs "_embedded" = none ∨
      ∃ efs, JVal.lookupField fs "_embedded" = some (.obj efs) ∧
        (JVal.lookupField efs rel = none ∨
          ∃ rfs, JVal.lookupField efs rel = some (.obj rfs) ∧
            JVal.lookupField rfs "name" = none))

/-- Envelope whose embedded sub-resource `rel` is present as a non-empty
object that lacks a `name` subfield. -/
def presentLackingName (wp : JVal) (rel : String) : Prop :=
  ∃ fs efs rfs, wp = JVal.obj fs ∧
    JVal.lookupField fs "_embedded" = some (.obj efs) ∧
    JVal.lookupField efs rel = some (.obj rfs) ∧
    rfs ≠ [] ∧
    JVal.lookupField rfs "name" = none

/-!
Collection totals (`list_work_packages`, server.py lines 230-235, and
`list_time_entry_activities`, lines 803-816).
-/

/-- Total reported by `list_work_packages` (lines 230 and 235):
`work_packages = result.get("_embedded", {}).get("elements", [])` and
`total = result.get("total", len(work_packages))`. -/
def list_work_packages_total (result : JVal) : Except PyErr JVal :=
  (result.pyGet "_embedded" (.obj [])).bind fun e =>
    (e.pyGet "elements" (.arr [])).bind fun wps =>
      (wps.pyLen).bind fun n =>
        result.pyGet "total" (.num n)

/-- Model of the `list_time_entry_activities` tool body (server.py lines
803-816): after the emptiness guard the header interpolates `result['total']`
directly, so an envelope without a `total` field raises `KeyError`. -/
def list_time_entry_activities_run (result : JVal) : Except PyErr String :=
  (result.pyGet "_embedded" (.obj [])).bind fun e =>
    (e.pyGet "elements" JVal.null).bind fun els =>
      if !els.truthy then .ok "No time entry activities found"
      else
        (result.pyIndex "total").bind fun tot =>
          (result.pyIndex "_embedded").bind fun emb =>
            (emb.pyIndex "elements").bind fun elements =>
              match elements with
              | .arr items =>
                items.foldlM (fun acc activity =>
                    (activity.pyIndex "name").bind fun nm =>
                      (activity.pyIndex "id").bind fun idv =>
                        (activity.pyGet "default" JVal.null).map fun dflt =>
                          acc ++ "- **" ++ JVal.pyStr nm ++ "** (ID: "
                            ++ JVal.pyStr idv ++ ")\n"
                            ++ (if dflt.truthy then "  ⭐ Default activity\n" else ""))
                  ("⏱️ **Time Entry Activities** (Total: " ++ JVal.pyStr tot ++ ")\n\n")
              | _ => .error .typeError

/-- Concrete single-element activity collection whose envelope omits the
optional `total` field. -/
def envNoTotal : JVal :=
  .obj [("_embedded", .obj [("elements",
    .arr [.obj [("id", .num 1), ("name", .str "Development")]])])]

/-!
Hierarchy traversal (`children(parent_id, include_descendants)`).

Modelled from the spec: the client method
`OpenProjectClient.list_work_package_children` called by the
`list_work_package_children` tool (server.py line 1072) lives in the package
`__init__` module, which is not part of the sources.  Spec sections 4.5 and 9
describe it: with `include_descendants=false` a single filtered list call for
work items whose parent equals `parent_id`; with `include_descendants=true` a
worklist expansion with a set of seen ids (direct children first, then their
children, accumulating a flat result, guarding against cycles by refusing to
revisit an id).  The remote store is a list of `(id, parent id)` records.
-/

/-- Remote work-item store: one `(id, optional parent id)` record per work
item. -/
abbrev WpStore := List (Int × Option Int)

/-- Direct children of `parent`: the filtered list call of spec section 4.5
(`include_descendants = false` case). -/
def directChildren (wps : WpStore) (parent : Int) : List Int :=
  (wps.filter (fun w => w.2 = some parent)).map Prod.fst

/-- Worklist expansion of spec sections 4.5/9: `allowed` is the set of ids
not yet visited, `queue` the pending ids.  A popped id is emitted and its
direct children enqueued exactly when it has not been visited before. -/
def descend (wps : WpStore) (allowed : List Int) (queue : List Int) : List Int :=
  match queue with
  | [] => []
  | x :: rest =>
    if h : x ∈ allowed then
      x :: descend wps (allowed.erase x) (rest ++ directChildren wps x)
    else
      descend wps allowed rest
termination_by (allowed.length, queue.length)
decreasing_by
  · apply Prod.Lex.left
    have h1 := List.length_erase_of_mem h
    have h2 : 0 < allowed.length := List.length_pos_of_mem h
    omega
  · apply Prod.Lex.right
    simp

/-- Traversal operation of spec section 4.5: `children(parent_id,
include_descendants)`.  The visited set initially contains `parent`, so the
initial not-yet-visited set is every stored id except `parent`. -/
def children (wps : WpStore) (parent : Int) (include_descendants : Bool) : List Int :=
  if include_descendants then
    descend wps (((wps.map Prod.fst).dedup).filter (fun i => i ≠ parent))
      (directChildren wps parent)
  else
    directChildren wps parent

/-- Child edge of the remote hierarchy: `b` is a direct child of `a`. -/
def childStep (wps : WpStore) (a b : Int) : Prop := (b, some a) ∈ wps

/-- Reachability along child edges through vertices of `A` only (every vertex
of the path, endpoints included, lies in `A`). -/
inductive ReachIn (wps : WpStore) (A : List Int) : Int → Int → Prop where
  | refl (a : Int) (ha : a ∈ A) : ReachIn wps A a a
  | step (a b c : Int) (ha : a ∈ A) (hab : childStep wps a b)
      (hbc : ReachIn wps A b c) : ReachIn wps A a c

/-- Transitive descendant: reachable from `p` by at least one child edge. -/
def TransDesc (wps : WpStore) (p x : Int) : Prop :=
  Relation.TransGen (childStep wps) p x

/-- Acyclicity of the parent/child graph: no work item is its own transitive
descendant. -/
def AcyclicStore (wps : WpStore) : Prop :=
  ∀ x, ¬ Relation.TransGen (childStep wps) x x

/-- Work-item store of the spec's three-level example tree: work item 10 is
the root, 1 and 2 are its children, 3 is a child of 1. -/
def wpsExample : WpStore := [(10, none), (1, some 10), (2, some 10), (3, some 1)]

/-- Work-package envelope whose embedded assignee lacks a `name` subfield. -/
def wpNoAssigneeName : JVal :=
  .obj [("_embedded", .obj [("assignee", .obj [("id", .num 5)])])]

/-- Work-package envelope whose embedded project lacks a `name` subfield. -/
def wpNoProjectName : JVal :=
  .obj [("_embedded", .obj [("project", .obj [("id", .num 7)])])]

/-!
Helper lemmas.
-/

/-- Key membership in an `is not None`-guarded field. -/
theorem mem_keys_optField {α} (k k' : String) (f : α → JVal) (o : Option α) :
    k' ∈ (optField k f o).map Prod.fst ↔ k' = k ∧ o ≠ none := by
  cases o <;> simp [optField]

/-- Key membership in a truthiness-guarded field. -/
theorem mem_keys_truthyField {α} (k k' : String) (f : α → JVal) (t : α → Bool)
    (o : Option α) :
    k' ∈ (truthyField k f t o).map Prod.fst ↔ k' = k ∧ ∃ v, o = some v ∧ t v = true := by
  cases o with
  | none => simp [truthyField]
  | some v => by_cases h : t v <;> simp [truthyField, h]

/-- Lookup in an empty field list. -/
theorem lookupField_nil (k : String) : JVal.lookupField [] k = none := rfl

/-- Membership in the direct-children list is the child edge. -/
theorem mem_directChildren {wps : WpStore} {a b : Int} :
    b ∈ directChildren wps a ↔ (b, some a) ∈ wps := by
  simp only [directChildren, List.mem_map, List.mem_filter]
  constructor
  · rintro ⟨⟨b', p⟩, ⟨hm, hp⟩, rfl⟩
    simp only [decide_eq_true_eq] at hp
    simpa [hp] using hm
  · intro h
    exact ⟨(b, some a), ⟨h, by simp⟩, rfl⟩

/-- First vertex of an in-`A` path lies in `A`. -/
theorem ReachIn.start_mem {wps : WpStore} {A : List Int} {q x : Int}
    (h : ReachIn wps A q x) : q ∈ A := by
  cases h with
  | refl _ ha => exact ha
  | step _ _ _ ha _ _ => exact ha

/-- Last vertex of an in-`A` path lies in `A`. -/
theorem ReachIn.end_mem {wps : WpStore} {A : List Int} {q x : Int}
    (h : ReachIn wps A q x) : x ∈ A := by
  induction h with
  | refl _ ha => exact ha
  | step _ _ _ _ _ _ ih => exact ih

/-- In-`A` reachability is monotone in `A`. -/
theorem ReachIn.mono {wps : WpStore} {A B : List Int} (hAB : A ⊆ B) {q x : Int}
    (h : ReachIn wps A q x) : ReachIn wps B q x := by
  induction h with
  | refl a ha => exact ReachIn.refl a (hAB ha)
  | step a b c ha hab _ ih => exact ReachIn.step a b c (hAB ha) hab ih

/-- Decomposition of an in-`A` path around a vertex `y` removed from `A`:
either the path ends at `y`, or it avoids the removed occurrence entirely, or
it can be restarted at a child of `y`. -/
theorem ReachIn.erase_decomp {wps : WpStore} {A : List Int} {q x : Int}
    (h : ReachIn wps A q x) (y : Int) :
    x = y ∨ ReachIn wps (A.erase y) q x
      ∨ ∃ b, childStep wps y b ∧ ReachIn wps (A.erase y) b x := by
  induction h with
  | refl a ha =>
    by_cases hay : a = y
    · exact Or.inl hay
    · exact Or.inr (Or.inl (ReachIn.refl a ((List.mem_erase_of_ne hay).2 ha)))
  | step a b c ha hab _ ih =>
    rcases ih with hc | h2 | ⟨b', hb', h3⟩
    · exact Or.inl hc
    · by_cases hay : a = y
      · exact Or.inr (Or.inr ⟨b, hay ▸ hab, h2⟩)
      · exact Or.inr (Or.inl (ReachIn.step a b c ((List.mem_erase_of_ne hay).2 ha) hab h2))
    · exact Or.inr (Or.inr ⟨b', hb', h3⟩)

/-- Characterization of the worklist expansion: an id is emitted exactly when
it is reachable from a pending id along child edges whose vertices are all
not yet visited. -/
theorem mem_descend_iff (wps : WpStore) (A Q : List Int) (x : Int) :
    x ∈ descend wps A Q ↔ ∃ q ∈ Q, ReachIn wps A q x := by
  induction A, Q using descend.induct wps with
  | case1 A => simp [descend]
  | case2 A x' rest h ih =>
    rw [descend]
    simp only [h, dite_true]
    constructor
    · intro hx
      rcases List.mem_cons.mp hx with rfl | hx2
      · exact ⟨x, List.mem_cons_self x rest, ReachIn.refl x h⟩
      · obtain ⟨q, hq, hr⟩ := ih.mp hx2
        rcases List.mem_append.mp hq with hq1 | hq2
        · exact ⟨q, List.mem_cons_of_mem _ hq1, hr.mono (List.erase_subset _ _)⟩
        · exact ⟨x', List.mem_cons_self x' rest,
            ReachIn.step x' q x h (mem_directChildren.mp hq2)
              (hr.mono (List.erase_subset _ _))⟩
    · rintro ⟨q, hq, hr⟩
      rcases hr.erase_decomp x' with rfl | h2 | ⟨b, hb, h3⟩
      · exact List.mem_cons_self _ _
      · by_cases hqx : q = x'
        · subst hqx
          cases h2 with
          | refl => exact List.mem_cons_self _ _
          | step _ b _ ha hab hbc =>
            exact List.mem_cons_of_mem _ (ih.mpr
              ⟨b, List.mem_append_right _ (mem_directChildren.mpr hab), hbc⟩)
        · have hq' : q ∈ rest := by
            rcases List.mem_cons.mp hq with rfl | hq2
            · exact absurd rfl hqx
            · exact hq2
          exact List.mem_cons_of_mem _ (ih.mpr ⟨q, List.mem_append_left _ hq', h2⟩)
      · exact List.mem_cons_of_mem _ (ih.mpr
          ⟨b, List.mem_append_right _ (mem_directChildren.mpr hb), h3⟩)
  | case3 A x' rest h ih =>
    rw [descend]
    simp only [h, dite_false]
    rw [ih]
    constructor
    · rintro ⟨q, hq, hr⟩
      exact ⟨q, List.mem_cons_of_mem _ hq, hr⟩
    · rintro ⟨q, hq, hr⟩
      rcases List.mem_cons.mp hq with rfl | hq2
      · exact absurd hr.start_mem h
      · exact ⟨q, hq2, hr⟩

/-- Every emitted id was not yet visited when the expansion started. -/
theorem descend_subset (wps : WpStore) (A Q : List Int) :
    ∀ x, x ∈ descend wps A Q → x ∈ A := fun x hx =>
  (((mem_descend_iff wps A Q x).mp hx).choose_spec.2).end_mem

/-- The worklist expansion never emits an id twice. -/
theorem descend_nodup (wps : WpStore) (A Q : List Int) (hA : A.Nodup) :
    (descend wps A Q).Nodup := by
  induction A, Q using descend.induct wps with
  | case1 A => simp [descend]
  | case2 A x' rest h ih =>
    rw [descend]
    simp only [h, dite_true]
    refine List.nodup_cons.mpr ⟨?_, ih (hA.erase x')⟩
    intro hmem
    exact hA.not_mem_erase (descend_subset _ _ _ _ hmem)
  | case3 A x' rest h ih =>
    rw [descend]
    simp only [h, dite_false]
    exact ih hA

/-- Forgetting the visited-set constraint of an in-`A` path. -/
theorem reachIn_reflTransGen {wps : WpStore} {A : List Int} {q x : Int}
    (h : ReachIn wps A q x) : Relation.ReflTransGen (childStep wps) q x := by
  induction h with
  | refl _ _ => exact Relation.ReflTransGen.refl
  | step a b c _ hab _ ih => exact Relation.ReflTransGen.head hab ih

/-- Every transitive descendant is a stored id (it is the child end of some
stored edge). -/
theorem transGen_mem_ids {wps : WpStore} {p z : Int}
    (h : Relation.TransGen (childStep wps) p z) : z ∈ wps.map Prod.fst := by
  rcases Relation.TransGen.tail'_iff.mp h with ⟨b, _, hbz⟩
  exact List.mem_map.mpr ⟨(z, some b), hbz, rfl⟩

/-- On an acyclic store, a child-edge path out of a strict descendant of
`parent` stays inside the initial not-yet-visited set of `children`. -/
theorem transGen_reachIn {wps : WpStore} {parent : Int} (hac : AcyclicStore wps)
    {q x : Int} (hrtg : Relation.ReflTransGen (childStep wps) q x)
    (hpq : Relation.TransGen (childStep wps) parent q) :
    ReachIn wps (((wps.map Prod.fst).dedup).filter (fun i => i ≠ parent)) q x := by
  have memA : ∀ z, Relation.TransGen (childStep wps) parent z →
      z ∈ ((wps.map Prod.fst).dedup).filter (fun i => i ≠ parent) := by
    intro z hz
    refine List.mem_filter.mpr ⟨List.mem_dedup.mpr (transGen_mem_ids hz), ?_⟩
    simp only [decide_eq_true_eq]
    intro hzp
    exact hac parent (hzp ▸ hz)
  revert hpq
  induction hrtg using Relation.ReflTransGen.head_induction_on with
  | refl => exact fun hpx => ReachIn.refl x (memA x hpx)
  | @head a c hab hrtg2 ih =>
    exact fun hpa => ReachIn.step a c x (memA a hpa) hab (ih (hpa.tail hab))

/-- Unfolding of `children` with descendants. -/
theorem children_true_eq (wps : WpStore) (parent : Int) :
    children wps parent true =
      descend wps (((wps.map Prod.fst).dedup).filter (fun i => i ≠ parent))
        (directChildren wps parent) := rfl

/-- Unfolding of `children` without descendants. -/
theorem children_false_eq (wps : WpStore) (parent : Int) :
    children wps parent false = directChildren wps parent := rfl

/-- A store whose child edges strictly increase some rank is acyclic. -/
theorem acyclic_of_rank (wps : WpStore) (f : Int → Nat)
    (hf : ∀ a b, childStep wps a b → f a < f b) : AcyclicStore wps := by
  intro x hx
  have hmono : ∀ u v, Relation.TransGen (childStep wps) u v → f u < f v := by
    intro u v h
    induction h with
    | single h1 => exact hf _ _ h1
    | tail _ h2 ih => exact lt_trans ih (hf _ _ h2)
  exact absurd (hmono x x hx) (lt_irrefl _)

/-!
Claim theorems.
-/

/-- C1 (spec-modelled): on an acyclic forest (stored ids pairwise distinct,
no work item its own transitive descendant), `children(parent_id, false)`
returns exactly the direct children of `parent_id`, `children(parent_id,
true)` returns exactly the transitive descendants of `parent_id`, and in
both cases every id occurs at most once in the result. -/
theorem spec_C1_hierarchy_traversal (wps : WpStore) (parent : Int)
    (hnd : (wps.map Prod.fst).Nodup) (hac : AcyclicStore wps) :
    (∀ x, x ∈ children wps parent false ↔ childStep wps parent x)
    ∧ (children wps parent false).Nodup
    ∧ (∀ x, x ∈ children wps parent true ↔ TransDesc wps parent x)
    ∧ (children wps parent true).Nodup := by
  refine ⟨?_, ?_, ?_, ?_⟩
  · intro x
    rw [children_false_eq]
    exact mem_directChildren
  · rw [children_false_eq]
    exact hnd.sublist ((List.filter_sublist wps).map Prod.fst)
  · intro x
    rw [children_true_eq, mem_descend_iff]
    constructor
    · rintro ⟨q, hq, hr⟩
      exact Relation.TransGen.head' (mem_directChildren.mp hq) (reachIn_reflTransGen hr)
    · intro ht
      rcases Relation.TransGen.head'_iff.mp ht with ⟨q, hpq, hqx⟩
      exact ⟨q, mem_directChildren.mpr hpq,
        transGen_reachIn hac hqx (Relation.TransGen.single hpq)⟩
  · rw [children_true_eq]
    exact descend_nodup _ _ _ ((List.nodup_dedup _).filter _)

/-- C1 witness: the hierarchy theorem applied to the spec's three-level
example tree (root 10 with children 1 and 2, 3 below 1). -/
theorem spec_C1_hierarchy_traversal_witness :
    (3 ∈ children wpsExample 10 true ↔ TransDesc wpsExample 10 3)
    ∧ (children wpsExample 10 true).Nodup
    ∧ (1 ∈ children wpsExample 10 false ↔ childStep wpsExample 10 1) := by
  have hnd : (wpsExample.map Prod.fst).Nodup := by decide
  have hac : AcyclicStore wpsExample := by
    apply acyclic_of_rank wpsExample (fun x => if x = 10 then 0 else if x = 3 then 2 else 1)
    intro a b h
    simp only [childStep, wpsExample, List.mem_cons, List.not_mem_nil, or_false,
      Prod.mk.injEq] at h
    rcases h with ⟨h1, h2⟩ | ⟨h1, h2⟩ | ⟨h1, h2⟩ | ⟨h1, h2⟩
    · exact absurd h2 (by simp)
    · cases Option.some.inj h2; subst h1; decide
    · cases Option.some.inj h2; subst h1; decide
    · cases Option.some.inj h2; subst h1; decide
  have h := spec_C1_hierarchy_traversal wpsExample 10 hnd hac
  exact ⟨h.2.2.1 3, h.2.2.2, h.1 1⟩

/-- C2: the filter expression of `list_work_packages` is exactly
`[{"status": {"operator": "o", "values": []}}]` for `status="open"`, exactly
the `"c"` variant for `status="closed"`, and for `status="all"` no status
predicate is built and the `filters` parameter passed onward is `None`. -/
theorem spec_C2_status_filter_shape :
    list_work_packages_filters "open" =
      [.obj [("status", .obj [("operator", .str "o"), ("values", .arr [])])]]
    ∧ list_work_packages_filtersStr "open" =
      some "[\x7b\"status\": \x7b\"operator\": \"o\", \"values\": []\x7d\x7d]"
    ∧ list_work_packages_filters "closed" =
      [.obj [("status", .obj [("operator", .str "c"), ("values", .arr [])])]]
    ∧ list_work_packages_filtersStr "closed" =
      some "[\x7b\"status\": \x7b\"operator\": \"c\", \"values\": []\x7d\x7d]"
    ∧ list_work_packages_filters "all" = []
    ∧ list_work_packages_filtersStr "all" = none := by
  refine ⟨rfl, rfl, rfl, rfl, rfl, rfl⟩

/-- C3: every filtering list tool passes `filters = None` to the client when
no predicate applies (`status="all"`, `active_only=False`, or all optional
filter arguments unset), never the serialized empty-array string. -/
theorem spec_C3_filter_omission :
    list_work_packages_filtersStr "all" = none
    ∧ list_projects_filters false = none
    ∧ list_users_filters false = none
    ∧ list_time_entries_filtersStr none none = none
    ∧ list_work_package_relations_filtersStr none none = none := by
  refine ⟨rfl, rfl, rfl, rfl, rfl⟩

/-- C4 counterexample: with `from_id = to_id = 1` the tool does call the
client's relation-creation method (with the self-edge payload) and returns
the success message, not a locally generated precondition error. -/
theorem spec_C4_self_relation_counterexample :
    (create_work_package_relation_run 1 1 "relates" none none (.ok ())).calls =
      [[("from_id", JVal.num 1), ("to_id", JVal.num 1), ("relation_type", JVal.str "relates")]]
    ∧ (create_work_package_relation_run 1 1 "relates" none none (.ok ())).output =
      "✅ Relation created: #1 relates #1" := by
  constructor <;> rfl

/-- C4 amended: `create_work_package_relation` performs no local self-edge
check; for every input, including `from_id == to_id`, it hands the
constructed payload to the client's relation-creation method in exactly one
call, and on client success reports success. -/
theorem spec_C4_relation_forwarded (from_id to_id : Int) (relation_type : String)
    (lag : Option Int) (description : Option String) :
    (∀ resp, (create_work_package_relation_run from_id to_id relation_type
        lag description resp).calls =
      [create_work_package_relation_data from_id to_id relation_type lag description])
    ∧ (create_work_package_relation_run from_id to_id relation_type lag description
        (.ok ())).output =
      "✅ Relation created: #" ++ toString from_id ++ " " ++ relation_type
        ++ " #" ++ toString to_id :=
  ⟨fun _ => rfl, rfl⟩

/-- C5: `create_membership` with neither `user_id` nor `group_id` returns the
locally generated error message and issues no client call; with a truthy
`user_id` (whatever `group_id` is), the payload carries `user_id` and no
`group_id` key. -/
theorem spec_C5_membership_exclusivity :
    (∀ (p : Int) (role_ids : Option (List Int)) (role_id : Option Int)
        (resp : Except String Unit),
      (create_membership_run p none none role_ids role_id resp).calls = []
      ∧ (create_membership_run p none none role_ids role_id resp).output =
          "❌ Error: Either user_id or group_id must be provided")
    ∧ (∀ (p : Int) (u g : Option Int) (role_ids : Option (List Int))
        (role_id : Option Int) (resp : Except String Unit), truthyInt u = true →
      (create_membership_run p u g role_ids role_id resp).calls =
        [[("project_id", JVal.num p), ("user_id", JVal.num (u.getD 0))]
          ++ membership_role_fields role_ids role_id]
      ∧ "group_id" ∉ ([("project_id", JVal.num p), ("user_id", JVal.num (u.getD 0))]
          ++ membership_role_fields role_ids role_id).map Prod.fst) := by
  constructor
  · intro p role_ids role_id resp
    exact ⟨rfl, rfl⟩
  · intro p u g role_ids role_id resp hu
    constructor
    · simp [create_membership_run, hu]
    · simp only [List.map_append, List.mem_append]
      rintro (h | h)
      · simp at h
      · simp only [membership_role_fields] at h
        split at h <;> simp_all

/-- C5 witness: both `user_id` and `group_id` supplied; `user_id` wins and
`group_id` is left out of the payload. -/
theorem spec_C5_membership_exclusivity_witness :
    (create_membership_run 1 (some 2) (some 3) none none (.ok ())).calls =
      [[("project_id", JVal.num 1), ("user_id", JVal.num 2)]
        ++ membership_role_fields none none]
    ∧ "group_id" ∉ ([("project_id", JVal.num 1), ("user_id", JVal.num 2)]
        ++ membership_role_fields none none).map Prod.fst :=
  spec_C5_membership_exclusivity.2 1 (some 2) (some 3) none none (.ok ()) rfl

/-- C6: the partial-update payloads of `update_work_package` and
`update_project` contain exactly the keys whose argument is not `None`, and
with no optional field set the empty change payload is still handed to the
client. -/
theorem spec_C6_partial_update :
    (∀ (s d : Option String) (t st p a pc : Option Int) (k : String),
      k ∈ (update_work_package_data s d t st p a pc).map Prod.fst ↔
        ((k = "subject" ∧ s ≠ none) ∨ (k = "description" ∧ d ≠ none) ∨
         (k = "type_id" ∧ t ≠ none) ∨ (k = "status_id" ∧ st ≠ none) ∨
         (k = "priority_id" ∧ p ≠ none) ∨ (k = "assignee_id" ∧ a ≠ none) ∨
         (k = "percentage_done" ∧ pc ≠ none)))
    ∧ (∀ (n i dsc : Option String) (pub : Option Bool) (stt : Option String)
        (par : Option Int) (k : String),
      k ∈ (update_project_data n i dsc pub stt par).map Prod.fst ↔
        ((k = "name" ∧ n ≠ none) ∨ (k = "identifier" ∧ i ≠ none) ∨
         (k = "description" ∧ dsc ≠ none) ∨ (k = "public" ∧ pub ≠ none) ∨
         (k = "status" ∧ stt ≠ none) ∨ (k = "parent_id" ∧ par ≠ none)))
    ∧ (∀ (wid : Int) (resp : Except String (Int × String)),
      (update_work_package_run wid none none none none none none none resp).calls =
        [(wid, [])])
    ∧ (∀ (pid : Int) (resp : Except String (Int × String)),
      (update_project_run pid none none none none none none resp).calls =
        [(pid, [])]) := by
  refine ⟨?_, ?_, fun _ _ => rfl, fun _ _ => rfl⟩
  · intro s d t st p a pc k
    simp only [update_work_package_data, List.map_append, List.mem_append,
      mem_keys_optField, or_assoc]
  · intro n i dsc pub stt par k
    simp only [update_project_data, List.map_append, List.mem_append,
      mem_keys_optField, or_assoc]

/-- C7: on first use, `get_client` raises the configuration error before any
client is constructed when either required parameter is absent or empty, and
a client handle is only ever constructed with both the base URL and the
credential present. -/
theorem spec_C7_client_configuration :
    (∀ env : Env, truthyStr env.url = false ∨ truthyStr env.api_key = false →
      get_client none env = .error "OPENPROJECT_URL and OPENPROJECT_API_KEY must be set")
    ∧ (∀ (env : Env) (c : Client), get_client none env = .ok c →
        truthyStr env.url = true ∧ truthyStr env.api_key = true
        ∧ env.url = some c.base_url ∧ env.api_key = some c.api_key) := by
  constructor
  · intro env h
    rcases h with h | h <;> simp [get_client, h]
  · intro env c h
    by_cases hu : truthyStr env.url
    · by_cases hk : truthyStr env.api_key
      · refine ⟨hu, hk, ?_, ?_⟩
        · simp [get_client, hu, hk] at h
          cases henv : env.url with
          | none => rw [henv] at hu; simp [truthyStr] at hu
          | some s => rw [← h]; simp [henv]
        · simp [get_client, hu, hk] at h
          cases henv : env.api_key with
          | none => rw [henv] at hk; simp [truthyStr] at hk
          | some s => rw [← h]; simp [henv]
      · simp [get_client, hu, hk] at h
    · simp [get_client, hu] at h

/-- C7 witness: a missing URL yields the configuration error, and a
successful first-use construction carries both parameters into the client. -/
theorem spec_C7_client_configuration_witness :
    get_client none ⟨none, some "secret", none⟩ =
      .error "OPENPROJECT_URL and OPENPROJECT_API_KEY must be set"
    ∧ (truthyStr (some "https://op.example") = true
       ∧ truthyStr (some "secret") = true
       ∧ (some "https://op.example" : Option String) =
          some (Client.mk "https://op.example" "secret" none).base_url
       ∧ (some "secret" : Option String) =
          some (Client.mk "https://op.example" "secret" none).api_key) :=
  ⟨spec_C7_client_configuration.1 ⟨none, some "secret", none⟩ (Or.inl rfl),
   spec_C7_client_configuration.2 ⟨some "https://op.example", some "secret", none⟩
     (Client.mk "https://op.example" "secret" none) rfl⟩

/-- C8 counterexample: for an envelope whose embedded assignee lacks a
`name` subfield, `get_work_package` reads the assignee name as
`"Unassigned"`, not the claimed `"N/A"` default. -/
theorem spec_C8_assignee_default_counterexample :
    gwp_assigneeName wpNoAssigneeName = .ok (some (.str "Unassigned"))
    ∧ "Unassigned" ≠ "N/A" := by
  exact ⟨rfl, by decide⟩

/-- C8 amended: reading a missing embedded status yields `"Unknown"` without
raising, in both `list_work_packages` and `get_work_package`; a missing type
yields `"N/A"` in both; an assignee object without a name yields `"N/A"` in
`list_work_packages` but `"Unassigned"` in `get_work_package`; a project
object without a name yields `"N/A"` in `get_work_package`. -/
theorem spec_C8_defensive_defaults :
    (∀ wp, lacksEmbeddedName wp "status" →
      lwp_statusName wp = .ok (.str "Unknown") ∧ gwp_statusName wp = .ok (.str "Unknown"))
    ∧ (∀ wp, lacksEmbeddedName wp "type" →
      lwp_typeName wp = .ok (.str "N/A") ∧ gwp_typeName wp = .ok (.str "N/A"))
    ∧ (∀ wp, presentLackingName wp "assignee" →
      lwp_assigneeName wp = .ok (some (.str "N/A"))
      ∧ gwp_assigneeName wp = .ok (some (.str "Unassigned")))
    ∧ (∀ wp, presentLackingName wp "project" →
      gwp_projectName wp = .ok (some (.str "N/A"))) := by
  refine ⟨?_, ?_, ?_, ?_⟩
  · rintro wp ⟨fs, rfl, h | ⟨efs, h1, h2 | ⟨rfs, h2, h3⟩⟩⟩ <;>
      constructor <;>
      simp [lwp_statusName, gwp_statusName, JVal.pyGet, lookupField_nil, Except.bind, *]
  · rintro wp ⟨fs, rfl, h | ⟨efs, h1, h2 | ⟨rfs, h2, h3⟩⟩⟩ <;>
      constructor <;>
      simp [lwp_typeName, gwp_typeName, JVal.pyGet, lookupField_nil, Except.bind, *]
  · rintro wp ⟨fs, efs, rfs, rfl, h1, h2, hne, h3⟩
    constructor <;>
      simp [lwp_assigneeName, gwp_assigneeName, JVal.pyGet, JVal.pyIndex, JVal.truthy,
        lookupField_nil, Except.bind, Except.map, List.isEmpty_eq_true, hne, *]
  · rintro wp ⟨fs, efs, rfs, rfl, h1, h2, hne, h3⟩
    simp [gwp_projectName, JVal.pyGet, JVal.pyIndex, JVal.truthy,
      lookupField_nil, Except.bind, Except.map, List.isEmpty_eq_true, hne, *]

/-- C8 witness: the defensive defaults exhibited on concrete envelopes (an
empty work-package object; assignee and project objects lacking names). -/
theorem spec_C8_defensive_defaults_witness :
    lwp_statusName (JVal.obj []) = .ok (.str "Unknown")
    ∧ gwp_typeName (JVal.obj []) = .ok (.str "N/A")
    ∧ lwp_assigneeName wpNoAssigneeName = .ok (some (.str "N/A"))
    ∧ gwp_projectName wpNoProjectName = .ok (some (.str "N/A")) := by
  have h1 : lacksEmbeddedName (JVal.obj []) "status" := ⟨[], rfl, Or.inl rfl⟩
  have h2 : lacksEmbeddedName (JVal.obj []) "type" := ⟨[], rfl, Or.inl rfl⟩
  have h3 : presentLackingName wpNoAssigneeName "assignee" :=
    ⟨[("_embedded", .obj [("assignee", .obj [("id", .num 5)])])],
     [("assignee", .obj [("id", .num 5)])], [("id", .num 5)],
     rfl, rfl, rfl, by simp, rfl⟩
  have h4 : presentLackingName wpNoProjectName "project" :=
    ⟨[("_embedded", .obj [("project", .obj [("id", .num 7)])])],
     [("project", .obj [("id", .num 7)])], [("id", .num 7)],
     rfl, rfl, rfl, by simp, rfl⟩
  exact ⟨(spec_C8_defensive_defaults.1 _ h1).1, (spec_C8_defensive_defaults.2.1 _ h2).2,
    (spec_C8_defensive_defaults.2.2.1 _ h3).1, spec_C8_defensive_defaults.2.2.2 _ h4⟩

/-- C9: on the concrete single-element collection envelope without a `total`
field, `list_time_entry_activities` raises `KeyError('total')` instead of
defaulting, while the `list_work_packages` total defaults to the element
count on the same envelope. -/
theorem spec_C9_total_keyerror :
    list_time_entry_activities_run envNoTotal = .error (.keyError "total")
    ∧ list_work_packages_total envNoTotal = .ok (.num 1) := by
  constructor <;> rfl

/-- C10: create tools test optional fields by truthiness while update tools
test for `None` only, so a supplied falsy value (`0` for `priority_id` of a
work package, `""` for a project description or a time-entry comment) is
silently dropped by create but sent by update. -/
theorem spec_C10_create_update_falsy_asymmetry :
    (∀ (pid : Int) (s : String) (t : Int) (d : Option String) (a : Option Int),
      "priority_id" ∉ (create_work_package_data pid s t d (some 0) a).map Prod.fst)
    ∧ (∀ (s d : Option String) (t st a pc : Option Int),
      ("priority_id", JVal.num 0) ∈ update_work_package_data s d t st (some 0) a pc)
    ∧ (∀ (n i : String) (pub : Bool) (st : Option String) (par : Option Int),
      "description" ∉ (create_project_data n i (some "") pub st par).map Prod.fst)
    ∧ (∀ (n i : Option String) (pub : Option Bool) (st : Option String)
        (par : Option Int),
      ("description", JVal.str "") ∈ update_project_data n i (some "") pub st par)
    ∧ (∀ (wid : Int) (h : JVal) (so : String) (aid : Option Int),
      "comment" ∉ (create_time_entry_data wid h so (some "") aid).map Prod.fst) := by
  refine ⟨?_, ?_, ?_, ?_, ?_⟩
  · intro pid s t d a
    simp only [create_work_package_data, List.map_append, List.mem_append,
      mem_keys_truthyField]
    simp
  · intro s d t st a pc
    simp [update_work_package_data, optField]
  · intro n i pub st par
    simp only [create_project_data, List.map_append, List.mem_append,
      mem_keys_truthyField]
    simp
  · intro n i pub st par
    simp [update_project_data, optField]
  · intro wid h so aid
    simp only [create_time_entry_data, List.map_append, List.mem_append,
      mem_keys_truthyField]
    simp
